import Mathlib

/-!
GL_triangle: a shallow embedding of `src/main.cpp`

The program is a single C++ translation unit: a handful of module-level
globals, a linear sequence of set-up calls and a frame loop.  The embedding is

* `State`    : the module-level globals of `main.cpp`, together with the ordered
               trace of SDL / OpenGL calls issued so far and the lines written
               to `std::cout`;
* `Env`      : the values handed back by the platform (results of `SDL_Init`,
               `SDL_CreateWindow`, `glGenVertexArrays`, the file system, ...);
* one Lean function per C++ function, with the C++ name.

Numeric values of the `GL_*` / `SDL_*` constants are those of the public
Khronos and SDL2 headers which `main.cpp` includes.
-/

set_option linter.unusedVariables false

namespace GLTriangle

/-! ## Primitive types -/

abbrev GLuint := Nat
abbrev GLenum := Nat
abbrev GLint := Int
abbrev GLsizei := Int
abbrev GLbitfield := Nat
/-- A raw pointer value; `0` is `nullptr`. -/
abbrev Pointer := Nat
/-- A `std::string`, as the sequence of its characters. -/
abbrev CppString := List Char

/-- A `float` literal of the source, kept as the decimal token that is written
there: `digits * 10 ^ (-scale)`.  `-0.5f` is `⟨-5, 1⟩`, `0.75f` is `⟨75, 2⟩`,
`1.f` is `⟨1, 0⟩`. -/
structure GLfloat where
  digits : Int
  scale : Nat
deriving DecidableEq, Repr

/-- Value of `sizeof(GLfloat)`. -/
def sizeof_GLfloat : Nat := 4

/-! ## Header constants -/

def GL_FALSE : Nat := 0
def GL_TRIANGLES : GLenum := 0x0004
def GL_DEPTH_BUFFER_BIT : GLbitfield := 0x00000100
def GL_COLOR_BUFFER_BIT : GLbitfield := 0x00004000
def GL_CULL_FACE : GLenum := 0x0B44
def GL_DEPTH_TEST : GLenum := 0x0B71
def GL_FLOAT : GLenum := 0x1406
def GL_VENDOR : GLenum := 0x1F00
def GL_RENDERER : GLenum := 0x1F01
def GL_VERSION : GLenum := 0x1F02
def GL_ARRAY_BUFFER : GLenum := 0x8892
def GL_STATIC_DRAW : GLenum := 0x88E4
def GL_FRAGMENT_SHADER : GLenum := 0x8B30
def GL_VERTEX_SHADER : GLenum := 0x8B31
def GL_SHADING_LANGUAGE_VERSION : GLenum := 0x8B8C

def SDL_INIT_VIDEO : Nat := 0x00000020
def SDL_WINDOW_OPENGL : Nat := 0x00000002
def SDL_QUIT : Nat := 0x100
def SDL_GL_DOUBLEBUFFER : Nat := 5
def SDL_GL_DEPTH_SIZE : Nat := 6
def SDL_GL_CONTEXT_MAJOR_VERSION : Nat := 17
def SDL_GL_CONTEXT_MINOR_VERSION : Nat := 18
def SDL_GL_CONTEXT_PROFILE_MASK : Nat := 21
def SDL_GL_CONTEXT_PROFILE_CORE : Int := 1

/-- An `SDL_Event`; only its `type` field is read by the program. -/
structure SDL_Event where
  type : Nat
deriving DecidableEq, Repr

/-! ## Calls into SDL, glad and OpenGL -/

/-- One call issued by the program, with the arguments it was given.  For the
calls that hand a value back (`glGen*`, `glCreate*`, `SDL_CreateWindow`, ...)
the value handed back is recorded as the last field. -/
inductive Call where
  | SDL_Init (flags : Nat) (result : Int)
  | SDL_GL_SetAttribute (attr : Nat) (value : Int)
  | SDL_CreateWindow (title : String) (x y w h : Int) (flags : Nat) (result : Pointer)
  | SDL_GL_CreateContext (window : Pointer) (result : Pointer)
  | gladLoadGLLoader (result : Int)
  | glGetString (name : GLenum)
  | glGenVertexArrays (n : GLsizei) (name : GLuint)
  | glBindVertexArray (array : GLuint)
  | glGenBuffers (n : GLsizei) (name : GLuint)
  | glBindBuffer (target : GLenum) (buffer : GLuint)
  | glBufferData (target : GLenum) (size : Nat) (data : List GLfloat) (usage : GLenum)
  | glEnableVertexAttribArray (index : GLuint)
  | glDisableVertexAttribArray (index : GLuint)
  | glVertexAttribPointer (index : GLuint) (size : GLint) (type : GLenum)
      (normalized : Nat) (stride : Nat) (pointer : Nat)
  | glCreateProgram (result : GLuint)
  | glCreateShader (type : GLenum) (result : GLuint)
  | glShaderSource (shader : GLuint) (count : GLsizei) (source : CppString)
  | glCompileShader (shader : GLuint)
  | glAttachShader (program : GLuint) (shader : GLuint)
  | glLinkProgram (program : GLuint)
  | glValidateProgram (program : GLuint)
  | glDisable (cap : GLenum)
  | glViewport (x y : GLint) (width height : GLsizei)
  | glClearColor (red green blue alpha : GLfloat)
  | glClear (mask : GLbitfield)
  | glUseProgram (program : GLuint)
  | glDrawArrays (mode : GLenum) (first : GLint) (count : GLsizei)
  | SDL_GL_SwapWindow (window : Pointer)
  | SDL_DestroyWindow (window : Pointer)
  | SDL_Quit
deriving DecidableEq, Repr

/-! ## Program state and environment -/

/-- The module-level globals of `main.cpp` (lines 8-17), the trace of calls
issued so far (oldest first) and the lines written to `std::cout`. -/
structure State where
  gScreenWidth : Int
  gScreenHeight : Int
  gGraphicsApplicationWindow : Pointer
  gOpenGLContext : Pointer
  gVertexArrayObject : GLuint
  gVertexBufferObject : GLuint
  gGraphicsPipelineShaderProgram : GLuint
  gQuit : Bool
  calls : List Call
  cout : List String
deriving DecidableEq, Repr

/-- The globals as initialised at program start. -/
def initialState : State where
  gScreenWidth := 640
  gScreenHeight := 480
  gGraphicsApplicationWindow := 0
  gOpenGLContext := 0
  gVertexArrayObject := 0
  gVertexBufferObject := 0
  gGraphicsPipelineShaderProgram := 0
  gQuit := false
  calls := []
  cout := []

/-- What the platform hands back to the program. -/
structure Env where
  /-- Return value of `SDL_Init`. -/
  sdlInit : Int
  /-- Pointer returned by `SDL_CreateWindow`. -/
  createWindow : Pointer
  /-- Pointer returned by `SDL_GL_CreateContext`. -/
  createContext : Pointer
  /-- Return value (an `int`) of `gladLoadGLLoader`; zero is `false`. -/
  gladLoad : Int
  /-- Text returned by `glGetString`. -/
  getString : GLenum → String
  /-- Name written by `glGenVertexArrays`. -/
  genVertexArray : GLuint
  /-- Name written by `glGenBuffers`. -/
  genBuffer : GLuint
  /-- Handle returned by `glCreateProgram`. -/
  createProgram : GLuint
  /-- Handle returned by `glCreateShader` for a shader type. -/
  createShader : GLenum → GLuint
  /-- The indeterminate initial value of the local `shaderObject`. -/
  indeterminate : GLuint
  /-- The file system: content of the file at a path, `none` when the file
  cannot be opened. -/
  files : String → Option CppString

/-- Record a call at the end of the trace. -/
def State.issue (s : State) (c : Call) : State :=
  { s with calls := s.calls ++ [c] }

/-- Write one line to `std::cout` (`<< ... << std::endl`). -/
def State.print (s : State) (line : String) : State :=
  { s with cout := s.cout ++ [line] }

/-! ## `LoadShaderAsString` (lines 19-31) -/

/-- The character loop of `std::getline`: characters are moved from the stream
to `line` until a newline has been extracted (and dropped) or the stream ends.
Returns the line and the rest of the stream. -/
def getlineChars : CppString → CppString → CppString × CppString
  | line, [] => (line, [])
  | line, c :: rest => if c = '\n' then (line, rest) else getlineChars (line ++ [c]) rest

/-- The call `std::getline(myFile, line)`: `none` when the stream is converted
to `false` (no character could be extracted), otherwise the line read and the
rest of the stream. -/
def getline (stream : CppString) : Option (CppString × CppString) :=
  match stream with
  | [] => none
  | _ :: _ => some (getlineChars [] stream)

/-- The loop `while (std::getline(myFile, line)) { result += line + '\n'; }`. -/
def readLoop (stream : CppString) (result : CppString) : CppString :=
  match h : getline stream with
  | none => result
  | some (line, rest) => readLoop rest (result ++ (line ++ ['\n']))
termination_by stream.length
decreasing_by
  have key : ∀ (cs acc : CppString), (getlineChars acc cs).2.length ≤ cs.length := by
    intro cs
    induction cs with
    | nil => intro acc; simp [getlineChars]
    | cons c cs ih =>
      intro acc
      simp only [getlineChars]
      split
      · simp
      · exact Nat.le_succ_of_le (ih _)
  cases stream with
  | nil => simp [getline] at h
  | cons c cs =>
    simp only [getline, Option.some.injEq] at h
    have h2 : rest = (getlineChars [] (c :: cs)).2 := by rw [h]
    subst h2
    simp only [getlineChars]
    split
    · simp
    · exact Nat.lt_succ_of_le (key _ _)

def LoadShaderAsString (files : String → Option CppString) (filename : String) : CppString :=
  match files filename with
  | some content => readLoop content []
  | none => []

/-- The lines of a stream, as successive calls of `std::getline` deliver them
until one fails. -/
def getlines (stream : CppString) : List CppString :=
  match h : getline stream with
  | none => []
  | some (line, rest) => line :: getlines rest
termination_by stream.length
decreasing_by
  have key : ∀ (cs acc : CppString), (getlineChars acc cs).2.length ≤ cs.length := by
    intro cs
    induction cs with
    | nil => intro acc; simp [getlineChars]
    | cons c cs ih =>
      intro acc
      simp only [getlineChars]
      split
      · simp
      · exact Nat.le_succ_of_le (ih _)
  cases stream with
  | nil => simp [getline] at h
  | cons c cs =>
    simp only [getline, Option.some.injEq] at h
    have h2 : rest = (getlineChars [] (c :: cs)).2 := by rw [h]
    subst h2
    simp only [getlineChars]
    split
    · simp
    · exact Nat.lt_succ_of_le (key _ _)

/-- A text with one newline added at the end unless it is empty or already
ends with one. -/
def withFinalNewline (c : CppString) : CppString :=
  if c = [] ∨ c.getLast? = some '\n' then c else c ++ ['\n']

/-! ## Embedded shader constants (lines 33-47) -/

def gVertexShaderSource : CppString :=
  ("#version 410 core\n" ++
   "in vec4 position;\n" ++
   "void main()\n" ++
   "\x7b\n" ++
   "   gl_Position = vec4(position.x, position.y, position.z, position.w);\n" ++
   "\x7d\n").toList

def gFragmentShaderSource : CppString :=
  ("#version 410 core\n" ++
   "out vec4 color;\n" ++
   "void main()\n" ++
   "\x7b\n" ++
   "    color = vec4(0.772549f, 0.188235f, 0.188235f, 1.f);\n" ++
   "\x7d\n").toList

/-! ## Shader pipeline (lines 49-87) -/

/-- `CompileShader` returns the shader object together with the new state. -/
def CompileShader (env : Env) (type : GLenum) (source : CppString) (s : State) :
    GLuint × State :=
  let (shaderObject, s) :=
    if type = GL_VERTEX_SHADER then
      (env.createShader GL_VERTEX_SHADER,
        s.issue (.glCreateShader GL_VERTEX_SHADER (env.createShader GL_VERTEX_SHADER)))
    else if type = GL_FRAGMENT_SHADER then
      (env.createShader GL_FRAGMENT_SHADER,
        s.issue (.glCreateShader GL_FRAGMENT_SHADER (env.createShader GL_FRAGMENT_SHADER)))
    else
      (env.indeterminate, s)
  let s := s.issue (.glShaderSource shaderObject 1 source)
  let s := s.issue (.glCompileShader shaderObject)
  (shaderObject, s)

def CreateShaderProgram (env : Env) (vertexShaderSource fragmentShaderSource : CppString)
    (s : State) : GLuint × State :=
  let programObject := env.createProgram
  let s := s.issue (.glCreateProgram programObject)
  let (myVertexShader, s) := CompileShader env GL_VERTEX_SHADER vertexShaderSource s
  let (myFragmentShader, s) := CompileShader env GL_FRAGMENT_SHADER fragmentShaderSource s
  let s := s.issue (.glAttachShader programObject myVertexShader)
  let s := s.issue (.glAttachShader programObject myFragmentShader)
  let s := s.issue (.glLinkProgram programObject)
  let s := s.issue (.glValidateProgram programObject)
  (programObject, s)

def CreateGraphicsPipeline (env : Env) (s : State) : State :=
  let vertexShaderSource := LoadShaderAsString env.files "./shaders/vert.glsl"
  let fragmentShaderSource := LoadShaderAsString env.files "./shaders/frag.glsl"
  let (program, s) := CreateShaderProgram env vertexShaderSource fragmentShaderSource s
  { s with gGraphicsPipelineShaderProgram := program }

/-! ## `GetOpenGLVersionInfo` (lines 89-95) -/

def GetOpenGLVersionInfo (env : Env) (s : State) : State :=
  let s := (s.issue (.glGetString GL_VENDOR)).print ("Vendor: " ++ env.getString GL_VENDOR)
  let s := (s.issue (.glGetString GL_RENDERER)).print
    ("Renderer: " ++ env.getString GL_RENDERER)
  let s := (s.issue (.glGetString GL_VERSION)).print ("Version: " ++ env.getString GL_VERSION)
  (s.issue (.glGetString GL_SHADING_LANGUAGE_VERSION)).print
    ("Shading Language Version: " ++ env.getString GL_SHADING_LANGUAGE_VERSION)

/-! ## `VertexSpecification` (lines 97-121) -/

/-- The local `vertexData` of `VertexSpecification`. -/
def vertexData : List GLfloat :=
  [⟨-5, 1⟩, ⟨-5, 1⟩, ⟨0, 1⟩, ⟨10, 1⟩, ⟨0, 1⟩,  ⟨0, 1⟩,
   ⟨5, 1⟩,  ⟨-5, 1⟩, ⟨0, 1⟩, ⟨6, 1⟩,  ⟨0, 1⟩,  ⟨8, 1⟩,
   ⟨-5, 1⟩, ⟨5, 1⟩,  ⟨0, 1⟩, ⟨10, 1⟩, ⟨75, 2⟩, ⟨8, 1⟩]

def VertexSpecification (env : Env) (s : State) : State :=
  let s : State := { s.issue (.glGenVertexArrays 1 env.genVertexArray) with
    gVertexArrayObject := env.genVertexArray }
  let s := s.issue (.glBindVertexArray s.gVertexArrayObject)
  let s : State := { s.issue (.glGenBuffers 1 env.genBuffer) with
    gVertexBufferObject := env.genBuffer }
  let s := s.issue (.glBindBuffer GL_ARRAY_BUFFER s.gVertexBufferObject)
  let s := s.issue (.glBufferData GL_ARRAY_BUFFER (vertexData.length * sizeof_GLfloat)
    vertexData GL_STATIC_DRAW)
  let s := s.issue (.glEnableVertexAttribArray 0)
  let s := s.issue (.glVertexAttribPointer 0 3 GL_FLOAT GL_FALSE (sizeof_GLfloat * 6) 0)
  let s := s.issue (.glEnableVertexAttribArray 1)
  let s := s.issue (.glVertexAttribPointer 1 3 GL_FLOAT GL_FALSE (sizeof_GLfloat * 6)
    (sizeof_GLfloat * 3))
  let s := s.issue (.glBindVertexArray 0)
  let s := s.issue (.glDisableVertexAttribArray 0)
  s.issue (.glDisableVertexAttribArray 1)

/-! ## `InitializeProgram` (lines 123-153) -/

/-- How a function that may call `exit` ends: the process has exited with a
code, or the function has returned. -/
inductive Outcome where
  | exited (code : Int) (s : State)
  | returned (s : State)
deriving DecidableEq, Repr

def InitializeProgram (env : Env) (s : State) : Outcome :=
  let s := s.issue (.SDL_Init SDL_INIT_VIDEO env.sdlInit)
  if env.sdlInit < 0 then
    .exited 1 (s.print "SDL2 could not initialize video subsystem")
  else
    let s := s.issue (.SDL_GL_SetAttribute SDL_GL_CONTEXT_MAJOR_VERSION 4)
    let s := s.issue (.SDL_GL_SetAttribute SDL_GL_CONTEXT_MINOR_VERSION 1)
    let s := s.issue
      (.SDL_GL_SetAttribute SDL_GL_CONTEXT_PROFILE_MASK SDL_GL_CONTEXT_PROFILE_CORE)
    let s := s.issue (.SDL_GL_SetAttribute SDL_GL_DOUBLEBUFFER 1)
    let s := s.issue (.SDL_GL_SetAttribute SDL_GL_DEPTH_SIZE 24)
    let s : State := { s.issue (.SDL_CreateWindow "OpenGL Window" 0 0 s.gScreenWidth
      s.gScreenHeight SDL_WINDOW_OPENGL env.createWindow) with
      gGraphicsApplicationWindow := env.createWindow }
    if s.gGraphicsApplicationWindow = 0 then
      .exited 1 (s.print "SDl_Window was not able to be created")
    else
      let s : State := { s.issue
        (.SDL_GL_CreateContext s.gGraphicsApplicationWindow env.createContext) with
        gOpenGLContext := env.createContext }
      let s := if s.gOpenGLContext = 0 then s.print "Could not create openGL context" else s
      let s := s.issue (.gladLoadGLLoader env.gladLoad)
      if env.gladLoad = 0 then
        .exited 1 (s.print "Glad was not initialized")
      else
        .returned (GetOpenGLVersionInfo env s)

/-! ## The frame loop (lines 155-195) -/

/-- `Input`, run against the queue of pending events: each successful
`SDL_PollEvent` removes the event at the head of the queue, and the loop ends
when `SDL_PollEvent` returns 0, that is, when the queue is empty.  Returns the
events still pending and the new state. -/
def Input : List SDL_Event → State → List SDL_Event × State
  | [], s => ([], s)
  | e :: pending, s =>
    if e.type = SDL_QUIT then
      Input pending { s.print "Goodbye!" with gQuit := true }
    else
      Input pending s

def PreDraw (s : State) : State :=
  let s := s.issue (.glDisable GL_DEPTH_TEST)
  let s := s.issue (.glDisable GL_CULL_FACE)
  let s := s.issue (.glViewport 0 0 s.gScreenWidth s.gScreenHeight)
  let s := s.issue (.glClearColor ⟨705882, 7⟩ ⟨705882, 7⟩ ⟨705882, 7⟩ ⟨1, 0⟩)
  let s := s.issue (.glClear (GL_DEPTH_BUFFER_BIT ||| GL_COLOR_BUFFER_BIT))
  s.issue (.glUseProgram s.gGraphicsPipelineShaderProgram)

def Draw (s : State) : State :=
  let s := s.issue (.glBindVertexArray s.gVertexArrayObject)
  let s := s.issue (.glBindBuffer GL_ARRAY_BUFFER s.gVertexBufferObject)
  s.issue (.glDrawArrays GL_TRIANGLES 0 3)

/-- One pass through the body of the `while` loop of `MainLoop`; `events` are
the events pending when `Input` starts polling. -/
def MainLoopBody (events : List SDL_Event) (s : State) : State :=
  let s := (Input events s).2
  let s := PreDraw s
  let s := Draw s
  s.issue (.SDL_GL_SwapWindow s.gGraphicsApplicationWindow)

/-- `MainLoop`, run against the batches of events that the successive calls of
`Input` will find pending.  `some s` when the loop has ended in state `s`;
`none` when every supplied batch has been consumed and the loop is still
running. -/
def MainLoop : List (List SDL_Event) → State → Option State
  | [], s => if s.gQuit then some s else none
  | events :: later, s =>
    if s.gQuit then some s else MainLoop later (MainLoopBody events s)

/-- The state after the loop body has been run once for each batch in turn,
without looking at the quit flag. -/
def runFrames (batches : List (List SDL_Event)) (s : State) : State :=
  batches.foldl (fun s events => MainLoopBody events s) s

/-! ## `CleanUp` and `main` (lines 197-215) -/

def CleanUp (s : State) : State :=
  let s := s.issue (.SDL_DestroyWindow s.gGraphicsApplicationWindow)
  s.issue .SDL_Quit

/-- The whole program: `some (code, s)` when the process ends with exit code
`code` in state `s`, `none` when it is still inside `MainLoop` after the
supplied batches of events. -/
def main (env : Env) (batches : List (List SDL_Event)) : Option (Int × State) :=
  match InitializeProgram env initialState with
  | .exited code s => some (code, s)
  | .returned s =>
    let s := VertexSpecification env s
    let s := CreateGraphicsPipeline env s
    match MainLoop batches s with
    | none => none
    | some s => some (0, CleanUp s)

/-- The state in which a function that may call `exit` left the program. -/
def Outcome.state : Outcome → State
  | .exited _ s => s
  | .returned s => s

/-! ## Observations on events and traces -/

/-- The test `e.type == SDL_QUIT` of `Input`. -/
def isQuit (e : SDL_Event) : Bool := decide (e.type = SDL_QUIT)

/-- Draw calls: `glDrawArrays` is the only drawing entry point the program uses. -/
def Call.isDraw : Call → Bool
  | .glDrawArrays _ _ _ => true
  | _ => false

/-- Buffer swaps, each of which presents one frame. -/
def Call.isSwap : Call → Bool
  | .SDL_GL_SwapWindow _ => true
  | _ => false

def Call.isViewport : Call → Bool
  | .glViewport _ _ _ _ => true
  | _ => false

/-- The calls issued by `PreDraw` in a state with the given globals. -/
def preDrawCalls (s : State) : List Call :=
  [.glDisable GL_DEPTH_TEST,
   .glDisable GL_CULL_FACE,
   .glViewport 0 0 s.gScreenWidth s.gScreenHeight,
   .glClearColor ⟨705882, 7⟩ ⟨705882, 7⟩ ⟨705882, 7⟩ ⟨1, 0⟩,
   .glClear (GL_DEPTH_BUFFER_BIT ||| GL_COLOR_BUFFER_BIT),
   .glUseProgram s.gGraphicsPipelineShaderProgram]

/-- The calls issued by `Draw`. -/
def drawCalls (s : State) : List Call :=
  [.glBindVertexArray s.gVertexArrayObject,
   .glBindBuffer GL_ARRAY_BUFFER s.gVertexBufferObject,
   .glDrawArrays GL_TRIANGLES 0 3]

/-- The calls issued by one pass through the loop body: those of `PreDraw`,
those of `Draw`, then the swap. -/
def frameCalls (s : State) : List Call :=
  preDrawCalls s ++ drawCalls s ++ [.SDL_GL_SwapWindow s.gGraphicsApplicationWindow]

/-- An attribute declaration read off a `glVertexAttribPointer` call. -/
structure AttribDecl where
  index : GLuint
  size : GLint
  type : GLenum
  normalized : Nat
  stride : Nat
  offset : Nat
deriving DecidableEq, Repr

/-- The attribute declarations of a trace, in order. -/
def attribDecls (calls : List Call) : List AttribDecl :=
  calls.filterMap fun
    | .glVertexAttribPointer i n t nz st p => some ⟨i, n, t, nz, st, p⟩
    | _ => none

/-- A buffer upload read off a `glBufferData` call. -/
structure Upload where
  target : GLenum
  size : Nat
  data : List GLfloat
  usage : GLenum
deriving DecidableEq, Repr

/-- The buffer uploads of a trace, in order. -/
def uploads (calls : List Call) : List Upload :=
  calls.filterMap fun
    | .glBufferData t n d u => some ⟨t, n, d, u⟩
    | _ => none

/-- Bytes `[offset, offset + size * sizeof(GLfloat))` taken by an attribute
inside one vertex. -/
def AttribDecl.firstByte (a : AttribDecl) : Nat := a.offset

def AttribDecl.endByte (a : AttribDecl) : Nat := a.offset + a.size.toNat * sizeof_GLfloat

/-- The calls issued by `VertexSpecification`. -/
def vertexSpecificationCalls (env : Env) : List Call :=
  [.glGenVertexArrays 1 env.genVertexArray,
   .glBindVertexArray env.genVertexArray,
   .glGenBuffers 1 env.genBuffer,
   .glBindBuffer GL_ARRAY_BUFFER env.genBuffer,
   .glBufferData GL_ARRAY_BUFFER (vertexData.length * sizeof_GLfloat) vertexData GL_STATIC_DRAW,
   .glEnableVertexAttribArray 0,
   .glVertexAttribPointer 0 3 GL_FLOAT GL_FALSE (sizeof_GLfloat * 6) 0,
   .glEnableVertexAttribArray 1,
   .glVertexAttribPointer 1 3 GL_FLOAT GL_FALSE (sizeof_GLfloat * 6) (sizeof_GLfloat * 3),
   .glBindVertexArray 0,
   .glDisableVertexAttribArray 0,
   .glDisableVertexAttribArray 1]

/-- The calls issued by `CreateShaderProgram` for two source strings. -/
def shaderProgramCalls (env : Env) (vertexShaderSource fragmentShaderSource : CppString) :
    List Call :=
  [.glCreateProgram env.createProgram,
   .glCreateShader GL_VERTEX_SHADER (env.createShader GL_VERTEX_SHADER),
   .glShaderSource (env.createShader GL_VERTEX_SHADER) 1 vertexShaderSource,
   .glCompileShader (env.createShader GL_VERTEX_SHADER),
   .glCreateShader GL_FRAGMENT_SHADER (env.createShader GL_FRAGMENT_SHADER),
   .glShaderSource (env.createShader GL_FRAGMENT_SHADER) 1 fragmentShaderSource,
   .glCompileShader (env.createShader GL_FRAGMENT_SHADER),
   .glAttachShader env.createProgram (env.createShader GL_VERTEX_SHADER),
   .glAttachShader env.createProgram (env.createShader GL_FRAGMENT_SHADER),
   .glLinkProgram env.createProgram,
   .glValidateProgram env.createProgram]

/-- The calls issued by `InitializeProgram` up to and including
`SDL_CreateWindow`. -/
def initCallsToWindow (env : Env) : List Call :=
  [.SDL_Init SDL_INIT_VIDEO env.sdlInit,
   .SDL_GL_SetAttribute SDL_GL_CONTEXT_MAJOR_VERSION 4,
   .SDL_GL_SetAttribute SDL_GL_CONTEXT_MINOR_VERSION 1,
   .SDL_GL_SetAttribute SDL_GL_CONTEXT_PROFILE_MASK SDL_GL_CONTEXT_PROFILE_CORE,
   .SDL_GL_SetAttribute SDL_GL_DOUBLEBUFFER 1,
   .SDL_GL_SetAttribute SDL_GL_DEPTH_SIZE 24,
   .SDL_CreateWindow "OpenGL Window" 0 0 640 480 SDL_WINDOW_OPENGL env.createWindow]

/-- The calls issued by `InitializeProgram` up to and including
`gladLoadGLLoader`. -/
def initCallsToLoader (env : Env) : List Call :=
  initCallsToWindow env ++
    [.SDL_GL_CreateContext env.createWindow env.createContext,
     .gladLoadGLLoader env.gladLoad]

/-- The state in which `gladLoadGLLoader` has just returned: window and
context stored, and the context message printed when the context is null. -/
def stateAtLoader (env : Env) : State :=
  { initialState with
      gGraphicsApplicationWindow := env.createWindow
      gOpenGLContext := env.createContext
      calls := initCallsToLoader env
      cout := if env.createContext = 0 then ["Could not create openGL context"] else [] }

/-! ## Vertex-array state of OpenGL

The part of the OpenGL state machine that the vertex-array calls act on:
the vertex-array binding, and for every vertex-array object the enable flag of
each attribute slot.  `glEnableVertexAttribArray` / `glDisableVertexAttribArray`
act on the object that is bound when they are called. -/

structure VertexArrayState where
  binding : GLuint
  enabled : GLuint → GLuint → Bool

/-- Nothing bound, every slot of every object disabled. -/
def VertexArrayState.initial : VertexArrayState := ⟨0, fun _ _ => false⟩

def VertexArrayState.step (g : VertexArrayState) : Call → VertexArrayState
  | .glBindVertexArray array => { g with binding := array }
  | .glEnableVertexAttribArray index =>
    { g with enabled := fun a i => if a = g.binding ∧ i = index then true else g.enabled a i }
  | .glDisableVertexAttribArray index =>
    { g with enabled := fun a i => if a = g.binding ∧ i = index then false else g.enabled a i }
  | _ => g

/-- The vertex-array state reached from `g` by a trace of calls. -/
def VertexArrayState.run (g : VertexArrayState) (calls : List Call) : VertexArrayState :=
  calls.foldl VertexArrayState.step g

/-! ## A concrete environment -/

/-- A platform on which everything succeeds and no shader file exists. -/
def sampleEnv : Env where
  sdlInit := 0
  createWindow := 1
  createContext := 1
  gladLoad := 1
  getString := fun _ => ""
  genVertexArray := 1
  genBuffer := 1
  createProgram := 3
  createShader := fun type => if type = GL_VERTEX_SHADER then 1 else 2
  indeterminate := 0
  files := fun _ => none

/-! ## Lemmas on `LoadShaderAsString` -/

theorem getlineChars_spec (cs acc : CppString) :
    ('\n' ∉ cs ∧ getlineChars acc cs = (acc ++ cs, [])) ∨
      ∃ l r, cs = l ++ '\n' :: r ∧ '\n' ∉ l ∧ getlineChars acc cs = (acc ++ l, r) := by
  induction cs generalizing acc with
  | nil => left; simp [getlineChars]
  | cons c cs ih =>
    by_cases hc : c = '\n'
    · right
      exact ⟨[], cs, by simp [hc], by simp, by simp [getlineChars, hc]⟩
    · rcases ih (acc ++ [c]) with ⟨hn, h⟩ | ⟨l, r, hcs, hl, h⟩
      · left
        refine ⟨?_, ?_⟩
        · simp only [List.mem_cons, not_or]
          exact ⟨fun e => hc e.symm, hn⟩
        · simp [getlineChars, hc, h]
      · right
        refine ⟨c :: l, r, by simp [hcs], ?_, ?_⟩
        · simp only [List.mem_cons, not_or]
          exact ⟨fun e => hc e.symm, hl⟩
        · simp [getlineChars, hc, h]

theorem getline_spec (stream : CppString) :
    (stream = [] ∧ getline stream = none) ∨
    (stream ≠ [] ∧ '\n' ∉ stream ∧ getline stream = some (stream, [])) ∨
      ∃ l r, stream = l ++ '\n' :: r ∧ '\n' ∉ l ∧ getline stream = some (l, r) := by
  cases stream with
  | nil => left; exact ⟨rfl, rfl⟩
  | cons c cs =>
    right
    rcases getlineChars_spec (c :: cs) [] with ⟨hn, h⟩ | ⟨l, r, hcs, hl, h⟩
    · left; exact ⟨by simp, hn, by simp [getline, h]⟩
    · right; exact ⟨l, r, hcs, hl, by simp [getline, h]⟩

theorem readLoop_none {stream : CppString} (result : CppString) (h : getline stream = none) :
    readLoop stream result = result := by
  rw [readLoop]
  split
  · rfl
  · simp_all

theorem readLoop_some {stream line rest : CppString} (result : CppString)
    (h : getline stream = some (line, rest)) :
    readLoop stream result = readLoop rest (result ++ (line ++ ['\n'])) := by
  rw [readLoop]
  split
  · simp_all
  · simp_all

theorem getlines_none {stream : CppString} (h : getline stream = none) :
    getlines stream = [] := by
  rw [getlines]
  split
  · rfl
  · simp_all

theorem getlines_some {stream line rest : CppString}
    (h : getline stream = some (line, rest)) :
    getlines stream = line :: getlines rest := by
  rw [getlines]
  split
  · simp_all
  · simp_all

theorem withFinalNewline_nil : withFinalNewline [] = [] := by
  simp [withFinalNewline]

theorem withFinalNewline_of_not_mem {c : CppString} (hne : c ≠ []) (h : '\n' ∉ c) :
    withFinalNewline c = c ++ ['\n'] := by
  have hlast : c.getLast? ≠ some '\n' := by
    intro e
    exact h (List.mem_of_getLast?_eq_some e)
  simp [withFinalNewline, hne, hlast]

theorem withFinalNewline_line (l r : CppString) :
    withFinalNewline (l ++ '\n' :: r) = (l ++ ['\n']) ++ withFinalNewline r := by
  cases r with
  | nil => simp [withFinalNewline]
  | cons x xs =>
    have h1 : (l ++ '\n' :: x :: xs).getLast? = (x :: xs).getLast? := by
      rw [List.getLast?_append, List.getLast?_cons_cons,
        List.getLast?_eq_getLast _ (List.cons_ne_nil x xs)]
      rfl
    simp only [withFinalNewline, h1]
    by_cases hl : (x :: xs).getLast? = some '\n' <;> simp [hl]

theorem readLoop_eq (stream result : CppString) :
    readLoop stream result = result ++ withFinalNewline stream := by
  generalize hn : stream.length = n
  induction n using Nat.strong_induction_on generalizing stream result with
  | _ n ih =>
    rcases getline_spec stream with ⟨he, h⟩ | ⟨hne, hmem, h⟩ | ⟨l, r, hs, hl, h⟩
    · rw [readLoop_none _ h, he, withFinalNewline_nil, List.append_nil]
    · rw [readLoop_some _ h, readLoop_none _ (by rfl), withFinalNewline_of_not_mem hne hmem]
    · have hlen : r.length < n := by
        rw [← hn, hs]; simp; omega
      rw [readLoop_some _ h, ih r.length hlen r _ rfl, hs, withFinalNewline_line]
      simp

theorem readLoop_getlines (stream result : CppString) :
    readLoop stream result =
      result ++ ((getlines stream).map fun line => line ++ ['\n']).flatten := by
  generalize hn : stream.length = n
  induction n using Nat.strong_induction_on generalizing stream result with
  | _ n ih =>
    rcases getline_spec stream with ⟨he, h⟩ | ⟨hne, hmem, h⟩ | ⟨l, r, hs, hl, h⟩
    · rw [readLoop_none _ h, getlines_none h]; simp
    · rw [readLoop_some _ h, readLoop_none _ (by rfl), getlines_some h,
        getlines_none (by rfl)]
      simp
    · have hlen : r.length < n := by
        rw [← hn, hs]; simp; omega
      rw [readLoop_some _ h, ih r.length hlen r _ rfl, getlines_some h]
      simp

theorem withFinalNewline_ends (c : CppString) :
    withFinalNewline c = [] ∨ (withFinalNewline c).getLast? = some '\n' := by
  unfold withFinalNewline
  split
  · assumption
  · right; simp

theorem withFinalNewline_idem (c : CppString) :
    withFinalNewline (withFinalNewline c) = withFinalNewline c := by
  have h := withFinalNewline_ends c
  generalize withFinalNewline c = d at h
  simp [withFinalNewline, h]

/-! ## Lemmas on the set-up functions -/

theorem GL_FRAGMENT_SHADER_ne_GL_VERTEX_SHADER : GL_FRAGMENT_SHADER ≠ GL_VERTEX_SHADER := by
  decide

theorem VertexSpecification_eq (env : Env) (s : State) :
    VertexSpecification env s =
      { s with
          gVertexArrayObject := env.genVertexArray
          gVertexBufferObject := env.genBuffer
          calls := s.calls ++ vertexSpecificationCalls env } := by
  simp [VertexSpecification, State.issue, vertexSpecificationCalls]

theorem CreateShaderProgram_eq (env : Env) (v f : CppString) (s : State) :
    CreateShaderProgram env v f s =
      (env.createProgram, { s with calls := s.calls ++ shaderProgramCalls env v f }) := by
  simp [CreateShaderProgram, CompileShader, State.issue, shaderProgramCalls,
    GL_FRAGMENT_SHADER_ne_GL_VERTEX_SHADER]

theorem CreateGraphicsPipeline_eq (env : Env) (s : State) :
    CreateGraphicsPipeline env s =
      { s with
          gGraphicsPipelineShaderProgram := env.createProgram
          calls := s.calls ++ shaderProgramCalls env
            (LoadShaderAsString env.files "./shaders/vert.glsl")
            (LoadShaderAsString env.files "./shaders/frag.glsl") } := by
  simp [CreateGraphicsPipeline, CreateShaderProgram_eq]

theorem InitializeProgram_eq (env : Env) :
    InitializeProgram env initialState =
      if env.sdlInit < 0 then
        .exited 1 { initialState with
          calls := [.SDL_Init SDL_INIT_VIDEO env.sdlInit]
          cout := ["SDL2 could not initialize video subsystem"] }
      else if env.createWindow = 0 then
        .exited 1 { initialState with
          calls := initCallsToWindow env
          cout := ["SDl_Window was not able to be created"] }
      else if env.gladLoad = 0 then
        .exited 1 { stateAtLoader env with
          cout := (stateAtLoader env).cout ++ ["Glad was not initialized"] }
      else
        .returned (GetOpenGLVersionInfo env (stateAtLoader env)) := by
  simp only [InitializeProgram]
  split_ifs with h1 h2 h3 h4 h5 <;>
    simp_all [State.issue, State.print, initialState, stateAtLoader, initCallsToLoader,
      initCallsToWindow]

theorem VertexArrayState.run_append (g : VertexArrayState) (xs ys : List Call) :
    g.run (xs ++ ys) = (g.run xs).run ys := by
  simp [VertexArrayState.run, List.foldl_append]

theorem main_eq (env : Env) (batches : List (List SDL_Event)) :
    main env batches =
      if env.sdlInit < 0 then
        some (1, { initialState with
          calls := [.SDL_Init SDL_INIT_VIDEO env.sdlInit]
          cout := ["SDL2 could not initialize video subsystem"] })
      else if env.createWindow = 0 then
        some (1, { initialState with
          calls := initCallsToWindow env
          cout := ["SDl_Window was not able to be created"] })
      else if env.gladLoad = 0 then
        some (1, { stateAtLoader env with
          cout := (stateAtLoader env).cout ++ ["Glad was not initialized"] })
      else
        (MainLoop batches (CreateGraphicsPipeline env (VertexSpecification env
          (GetOpenGLVersionInfo env (stateAtLoader env))))).map fun s => (0, CleanUp s) := by
  simp only [main, InitializeProgram_eq]
  split_ifs
  · rfl
  · rfl
  · rfl
  · simp only []
    cases MainLoop batches (CreateGraphicsPipeline env (VertexSpecification env
      (GetOpenGLVersionInfo env (stateAtLoader env)))) <;> rfl

/-! ## Lemmas on the frame loop -/

theorem Input_eq (queue : List SDL_Event) (s : State) :
    Input queue s =
      ([], { s with
              gQuit := s.gQuit || queue.any isQuit
              cout := s.cout ++ List.replicate (queue.countP isQuit) "Goodbye!" }) := by
  induction queue generalizing s with
  | nil => simp [Input]
  | cons e pending ih =>
    by_cases h : e.type = SDL_QUIT
    · simp [Input, h, ih, isQuit, State.print, List.replicate_succ]
    · simp [Input, h, ih, isQuit]

theorem PreDraw_eq (s : State) : PreDraw s = { s with calls := s.calls ++ preDrawCalls s } := by
  simp [PreDraw, State.issue, preDrawCalls]

theorem Draw_eq (s : State) : Draw s = { s with calls := s.calls ++ drawCalls s } := by
  simp [Draw, State.issue, drawCalls]

theorem MainLoopBody_eq (events : List SDL_Event) (s : State) :
    MainLoopBody events s =
      { s with
          gQuit := s.gQuit || events.any isQuit
          cout := s.cout ++ List.replicate (events.countP isQuit) "Goodbye!"
          calls := s.calls ++ frameCalls s } := by
  simp [MainLoopBody, Input_eq, PreDraw_eq, Draw_eq, State.issue, frameCalls, preDrawCalls,
    drawCalls]

theorem frameCalls_MainLoopBody (events : List SDL_Event) (s : State) :
    frameCalls (MainLoopBody events s) = frameCalls s := by
  simp [MainLoopBody_eq, frameCalls, preDrawCalls, drawCalls]

theorem runFrames_append (xs ys : List (List SDL_Event)) (s : State) :
    runFrames (xs ++ ys) s = runFrames ys (runFrames xs s) := by
  simp [runFrames, List.foldl_append]

theorem frameCalls_runFrames (batches : List (List SDL_Event)) (s : State) :
    frameCalls (runFrames batches s) = frameCalls s := by
  induction batches generalizing s with
  | nil => rfl
  | cons b bs ih =>
    show frameCalls (runFrames bs (MainLoopBody b s)) = frameCalls s
    rw [ih, frameCalls_MainLoopBody]

theorem runFrames_calls (batches : List (List SDL_Event)) (s : State) :
    (runFrames batches s).calls =
      s.calls ++ (List.replicate batches.length (frameCalls s)).flatten := by
  induction batches generalizing s with
  | nil => simp [runFrames]
  | cons b bs ih =>
    show (runFrames bs (MainLoopBody b s)).calls = _
    rw [ih, frameCalls_MainLoopBody]
    simp [MainLoopBody_eq, List.replicate_succ]

theorem runFrames_gQuit (batches : List (List SDL_Event)) (s : State) :
    (runFrames batches s).gQuit = (s.gQuit || batches.any fun b => b.any isQuit) := by
  induction batches generalizing s with
  | nil => simp [runFrames]
  | cons b bs ih =>
    show (runFrames bs (MainLoopBody b s)).gQuit = _
    rw [ih]
    simp [MainLoopBody_eq, Bool.or_assoc]

/-- While no close event is polled the loop keeps going: after the batches
`quiet` the loop is where `runFrames` says. -/
theorem MainLoop_quiet (quiet rest : List (List SDL_Event)) (s : State)
    (hs : s.gQuit = false) (hquiet : ∀ b ∈ quiet, b.any isQuit = false) :
    MainLoop (quiet ++ rest) s = MainLoop rest (runFrames quiet s) := by
  induction quiet generalizing s with
  | nil => simp [runFrames]
  | cons b bs ih =>
    have hb : b.any isQuit = false := hquiet b (List.mem_cons_self _ _)
    have hq : (MainLoopBody b s).gQuit = false := by simp [MainLoopBody_eq, hs, hb]
    have := ih (MainLoopBody b s) hq (fun x hx => hquiet x (List.mem_cons_of_mem _ hx))
    simpa [MainLoop, hs, runFrames] using this

theorem MainLoop_of_gQuit (batches : List (List SDL_Event)) (s : State)
    (hs : s.gQuit = true) : MainLoop batches s = some s := by
  cases batches <;> simp [MainLoop, hs]

/-- A loop that never polls a close event is still running when the supplied
batches are used up. -/
theorem MainLoop_running (batches : List (List SDL_Event)) (s : State)
    (hs : s.gQuit = false) (hquiet : ∀ b ∈ batches, b.any isQuit = false) :
    MainLoop batches s = none := by
  have h := MainLoop_quiet batches [] s hs hquiet
  rw [List.append_nil] at h
  rw [h]
  have hq : (runFrames batches s).gQuit = false := by
    rw [runFrames_gQuit, hs]
    simpa using hquiet
  simp [MainLoop, hq]

theorem MainLoop_whole_frames (batches : List (List SDL_Event)) (s : State) :
    MainLoop batches s = none ∨
      ∃ n, n ≤ batches.length ∧ MainLoop batches s = some (runFrames (batches.take n) s) := by
  induction batches generalizing s with
  | nil =>
    cases hs : s.gQuit
    · left; simp [MainLoop, hs]
    · right; exact ⟨0, Nat.le_refl _, by simp [MainLoop, hs, runFrames]⟩
  | cons b bs ih =>
    cases hs : s.gQuit
    · rcases ih (MainLoopBody b s) with h | ⟨n, hn, h⟩
      · left; simp [MainLoop, hs, h]
      · right
        refine ⟨n + 1, by simpa using hn, ?_⟩
        simp [MainLoop, hs, h, runFrames]
    · right; exact ⟨0, Nat.zero_le _, by simp [MainLoop, hs, runFrames]⟩

theorem filter_flatten_replicate {α : Type} (p : α → Bool) (n : Nat) (xs ys : List α)
    (h : xs.filter p = ys) :
    (List.replicate n xs).flatten.filter p = (List.replicate n ys).flatten := by
  induction n with
  | zero => simp
  | succ n ih => simp [List.replicate_succ, List.filter_append, ih, h]

theorem flatten_replicate_singleton {α : Type} (n : Nat) (x : α) :
    (List.replicate n [x]).flatten = List.replicate n x := by
  induction n with
  | zero => simp
  | succ n ih => simp [List.replicate_succ, ih]

/-- With a working platform and a close event in the first batch, `main`
returns 0 after one frame. -/
theorem main_quit_first (env : Env) (batches : List (List SDL_Event))
    (h1 : ¬ env.sdlInit < 0) (h2 : env.createWindow ≠ 0) (h3 : env.gladLoad ≠ 0) :
    main env ([⟨SDL_QUIT⟩] :: batches) =
      some (0, CleanUp (MainLoopBody [⟨SDL_QUIT⟩] (CreateGraphicsPipeline env
        (VertexSpecification env (GetOpenGLVersionInfo env (stateAtLoader env)))))) := by
  have hq0 : (CreateGraphicsPipeline env (VertexSpecification env
      (GetOpenGLVersionInfo env (stateAtLoader env)))).gQuit = false := by
    simp [CreateGraphicsPipeline_eq, VertexSpecification_eq, GetOpenGLVersionInfo,
      stateAtLoader, State.issue, State.print, initialState]
  rw [main_eq]
  simp only [h1, h2, h3, if_false, MainLoop, hq0, Bool.false_eq_true]
  rw [MainLoop_of_gQuit _ _ (by simp [MainLoopBody_eq, isQuit])]
  rfl

/-! ## The claims on the frame loop -/

/-- C1: every pass through the body of `MainLoop`, whatever events `Input`
polled, issues exactly one draw call, `glDrawArrays(GL_TRIANGLES, 0, 3)`, right
after binding `gVertexArrayObject` and `gVertexBufferObject`; a run of `n`
passes issues exactly `n` draw calls, all with these arguments; and when
`MainLoop` ends it has run a whole number of such passes. -/
theorem MainLoop_one_draw_per_iteration (events : List SDL_Event)
    (batches : List (List SDL_Event)) (s : State) :
    (MainLoopBody events s).calls =
      s.calls ++
        [.glDisable GL_DEPTH_TEST,
         .glDisable GL_CULL_FACE,
         .glViewport 0 0 s.gScreenWidth s.gScreenHeight,
         .glClearColor ⟨705882, 7⟩ ⟨705882, 7⟩ ⟨705882, 7⟩ ⟨1, 0⟩,
         .glClear (GL_DEPTH_BUFFER_BIT ||| GL_COLOR_BUFFER_BIT),
         .glUseProgram s.gGraphicsPipelineShaderProgram,
         .glBindVertexArray s.gVertexArrayObject,
         .glBindBuffer GL_ARRAY_BUFFER s.gVertexBufferObject,
         .glDrawArrays GL_TRIANGLES 0 3,
         .SDL_GL_SwapWindow s.gGraphicsApplicationWindow] ∧
    (MainLoopBody events s).calls.filter Call.isDraw =
      s.calls.filter Call.isDraw ++ [.glDrawArrays GL_TRIANGLES 0 3] ∧
    (runFrames batches s).calls.filter Call.isDraw =
      s.calls.filter Call.isDraw ++
        List.replicate batches.length (.glDrawArrays GL_TRIANGLES 0 3) ∧
    (MainLoop batches s = none ∨
      ∃ n, n ≤ batches.length ∧
        MainLoop batches s = some (runFrames (batches.take n) s)) := by
  have hframe : (frameCalls s).filter Call.isDraw = [.glDrawArrays GL_TRIANGLES 0 3] := by
    simp [frameCalls, preDrawCalls, drawCalls, Call.isDraw, List.filter]
  refine ⟨?_, ?_, ?_, MainLoop_whole_frames batches s⟩
  · simp [MainLoopBody_eq, frameCalls, preDrawCalls, drawCalls]
  · rw [MainLoopBody_eq]
    simp only [List.filter_append, hframe]
  · rw [runFrames_calls, List.filter_append,
      filter_flatten_replicate _ _ _ _ hframe, flatten_replicate_singleton]

/-- C2: started with the quit flag false, if the batches polled before `b`
contain no close event and `b` contains one, then the quit flag is still false
when the pass for `b` begins, it is true when `Input` returns in that pass,
`PreDraw`, `Draw` and the swap of that pass are still executed, `MainLoop` ends
right after that pass whatever batches would follow, and the number of frames
presented is the 1-based index of `b`. -/
theorem MainLoop_exits_after_first_close (quiet : List (List SDL_Event))
    (b : List SDL_Event) (later : List (List SDL_Event)) (s : State)
    (hs : s.gQuit = false) (hquiet : ∀ x ∈ quiet, x.any isQuit = false)
    (hb : b.any isQuit = true) :
    (runFrames quiet s).gQuit = false ∧
    (Input b (runFrames quiet s)).2.gQuit = true ∧
    (Input b (runFrames quiet s)).2.calls = (runFrames quiet s).calls ∧
    MainLoop (quiet ++ b :: later) s =
      some ((Draw (PreDraw (Input b (runFrames quiet s)).2)).issue
        (.SDL_GL_SwapWindow s.gGraphicsApplicationWindow)) ∧
    MainLoop (quiet ++ b :: later) s = some (runFrames (quiet ++ [b]) s) ∧
    (runFrames (quiet ++ [b]) s).gQuit = true ∧
    (runFrames (quiet ++ [b]) s).calls =
      (runFrames quiet s).calls ++ preDrawCalls s ++ drawCalls s ++
        [.SDL_GL_SwapWindow s.gGraphicsApplicationWindow] ∧
    ((runFrames (quiet ++ [b]) s).calls.filter Call.isSwap).length =
      (s.calls.filter Call.isSwap).length + (quiet.length + 1) := by
  have hq : (runFrames quiet s).gQuit = false := by
    rw [runFrames_gQuit, hs]
    simpa using hquiet
  have hlast : runFrames (quiet ++ [b]) s = MainLoopBody b (runFrames quiet s) := by
    rw [runFrames_append]; rfl
  have hend : (MainLoopBody b (runFrames quiet s)).gQuit = true := by
    simp [MainLoopBody_eq, hb]
  have hloop : MainLoop (quiet ++ b :: later) s = some (runFrames (quiet ++ [b]) s) := by
    rw [MainLoop_quiet quiet (b :: later) s hs hquiet, hlast]
    simp only [MainLoop, hq, Bool.false_eq_true, if_false]
    exact MainLoop_of_gQuit _ _ hend
  have hglob : frameCalls (runFrames quiet s) = frameCalls s := frameCalls_runFrames quiet s
  have hframe : (frameCalls s).filter Call.isSwap =
      [.SDL_GL_SwapWindow s.gGraphicsApplicationWindow] := by
    simp [frameCalls, preDrawCalls, drawCalls, Call.isSwap, List.filter]
  refine ⟨hq, ?_, ?_, ?_, hloop, ?_, ?_, ?_⟩
  · simp [Input_eq, hb]
  · simp [Input_eq]
  · rw [hloop, hlast]
    have hw : (runFrames quiet s).gGraphicsApplicationWindow = s.gGraphicsApplicationWindow := by
      have := hglob
      simp only [frameCalls, preDrawCalls, drawCalls] at this
      simp at this
      exact this.2.2.2.2
    simp [MainLoopBody, Draw_eq, PreDraw_eq, Input_eq, State.issue, hw]
  · rw [hlast]; exact hend
  · rw [hlast, MainLoopBody_eq]
    show _ ++ frameCalls (runFrames quiet s) = _
    rw [hglob]
    simp [frameCalls]
  · rw [runFrames_calls, List.filter_append, filter_flatten_replicate _ _ _ _ hframe,
      flatten_replicate_singleton]
    simp

/-- Witness for C2: one quiet batch, then a batch holding a close event. -/
theorem MainLoop_exits_after_first_close_witness :
    MainLoop ([[⟨0x300⟩]] ++ [⟨0x400⟩, ⟨SDL_QUIT⟩] :: [[]]) initialState =
        some (runFrames ([[⟨0x300⟩]] ++ [[⟨0x400⟩, ⟨SDL_QUIT⟩]]) initialState) ∧
      ((runFrames ([[⟨0x300⟩]] ++ [[⟨0x400⟩, ⟨SDL_QUIT⟩]]) initialState).calls.filter
        Call.isSwap).length = (initialState.calls.filter Call.isSwap).length + (1 + 1) :=
  have h := MainLoop_exits_after_first_close [[⟨0x300⟩]] [⟨0x400⟩, ⟨SDL_QUIT⟩] [[]]
    initialState rfl (by decide) (by decide)
  ⟨h.2.2.2.2.1, h.2.2.2.2.2.2.2⟩

/-- C8: `Input` leaves no event pending; the quit flag afterwards is the old
flag OR "the queue holds a close event"; "Goodbye!" is printed once per close
event; nothing else in the state changes; events of other types change nothing
and print nothing; a quit flag that is already true stays true. -/
theorem Input_drains_queue_and_latches_quit (queue : List SDL_Event) (s : State) :
    (Input queue s).1 = [] ∧
    (Input queue s).2.gQuit = (s.gQuit || queue.any fun e => decide (e.type = SDL_QUIT)) ∧
    (Input queue s).2.cout =
      s.cout ++ List.replicate (queue.countP fun e => decide (e.type = SDL_QUIT)) "Goodbye!" ∧
    (Input queue s).2 =
      { s with gQuit := (Input queue s).2.gQuit, cout := (Input queue s).2.cout } ∧
    Input (queue.filter fun e => decide (e.type ≠ SDL_QUIT)) s = ([], s) ∧
    (Input queue s).2 = (Input (queue.filter fun e => decide (e.type = SDL_QUIT)) s).2 ∧
    (Input queue { s with gQuit := true }).2.gQuit = true := by
  have hfun : (fun e : SDL_Event => decide (e.type = SDL_QUIT)) = isQuit := rfl
  refine ⟨?_, ?_, ?_, ?_, ?_, ?_, ?_⟩
  · simp [Input_eq]
  · simp [Input_eq, hfun]
  · simp [Input_eq, hfun]
  · simp [Input_eq]
  · rw [Input_eq]
    have h1 : (queue.filter fun e => decide (e.type ≠ SDL_QUIT)).any isQuit = false := by
      simp [isQuit]
    have h2 : (queue.filter fun e => decide (e.type ≠ SDL_QUIT)).countP isQuit = 0 := by
      simp [isQuit, List.countP_eq_zero]
    rw [h1, h2]
    simp
  · rw [Input_eq, Input_eq, hfun]
    have h1 : (queue.filter isQuit).any isQuit = queue.any isQuit := by
      induction queue with
      | nil => rfl
      | cons e es ih => by_cases h : isQuit e = true <;> simp_all [List.filter]
    have h2 : (queue.filter isQuit).countP isQuit = queue.countP isQuit := by
      induction queue with
      | nil => rfl
      | cons e es ih => by_cases h : isQuit e = true <;> simp_all [List.filter]
    rw [h1, h2]
  · simp [Input_eq]

/-- C9: `PreDraw` issues, in this order and whatever came before, the two
`glDisable` calls, `glViewport(0, 0, gScreenWidth, gScreenHeight)` with the
current values of the globals, the fixed `glClearColor`, `glClear` of the
depth and colour buffers and `glUseProgram(gGraphicsPipelineShaderProgram)`,
and changes no global; new values of the two globals show up in the next
viewport call; no part of the program changes them, so from the initial
640 by 480 every frame's viewport call is `glViewport(0, 0, 640, 480)`. -/
theorem PreDraw_calls_in_order (env : Env) (batches : List (List SDL_Event)) (s : State)
    (w h : Int) :
    (PreDraw s).calls =
      s.calls ++
        [.glDisable GL_DEPTH_TEST,
         .glDisable GL_CULL_FACE,
         .glViewport 0 0 s.gScreenWidth s.gScreenHeight,
         .glClearColor ⟨705882, 7⟩ ⟨705882, 7⟩ ⟨705882, 7⟩ ⟨1, 0⟩,
         .glClear (GL_DEPTH_BUFFER_BIT ||| GL_COLOR_BUFFER_BIT),
         .glUseProgram s.gGraphicsPipelineShaderProgram] ∧
    PreDraw s = { s with calls := (PreDraw s).calls } ∧
    (PreDraw { s with gScreenWidth := w, gScreenHeight := h }).calls.filter Call.isViewport =
      s.calls.filter Call.isViewport ++ [.glViewport 0 0 w h] ∧
    (runFrames batches { s with gScreenWidth := w, gScreenHeight := h }).calls.filter
        Call.isViewport =
      s.calls.filter Call.isViewport ++ List.replicate batches.length (.glViewport 0 0 w h) ∧
    (initialState.gScreenWidth = 640 ∧ initialState.gScreenHeight = 480) ∧
    ((InitializeProgram env initialState).state.gScreenWidth = 640 ∧
      (InitializeProgram env initialState).state.gScreenHeight = 480) ∧
    ((CreateGraphicsPipeline env (VertexSpecification env s)).gScreenWidth = s.gScreenWidth ∧
      (CreateGraphicsPipeline env (VertexSpecification env s)).gScreenHeight =
        s.gScreenHeight) ∧
    ((runFrames batches s).gScreenWidth = s.gScreenWidth ∧
      (runFrames batches s).gScreenHeight = s.gScreenHeight) := by
  have hframe : ∀ t : State, (frameCalls t).filter Call.isViewport =
      [.glViewport 0 0 t.gScreenWidth t.gScreenHeight] := by
    intro t
    simp [frameCalls, preDrawCalls, drawCalls, Call.isViewport, List.filter]
  refine ⟨?_, ?_, ?_, ?_, ⟨rfl, rfl⟩, ?_, ?_, ?_⟩
  · simp [PreDraw_eq, preDrawCalls]
  · simp [PreDraw_eq]
  · simp [PreDraw_eq, preDrawCalls, List.filter_append, Call.isViewport, List.filter]
  · rw [runFrames_calls, List.filter_append, filter_flatten_replicate _ _ _ _ (hframe _),
      flatten_replicate_singleton]
  · simp only [InitializeProgram]
    split_ifs <;> simp [Outcome.state, State.print, State.issue, GetOpenGLVersionInfo,
      initialState]
  · simp [CreateGraphicsPipeline_eq, VertexSpecification_eq]
  · have := frameCalls_runFrames batches s
    simp only [frameCalls, preDrawCalls, drawCalls] at this
    simp at this
    exact this.1

/-! ## The claims on shader loading -/

/-- C10: for a file that can be opened, with content `c`, `LoadShaderAsString`
returns the lines that `std::getline` delivers, each followed by a newline;
that is `c` itself when `c` is empty or ends with a newline, and `c` followed
by one newline otherwise; the result is empty or ends with a newline; and
loading a file whose content is that result returns it unchanged. -/
theorem LoadShaderAsString_adds_final_newline (files files2 : String → Option CppString)
    (filename filename2 : String) (c : CppString) (hfile : files filename = some c)
    (hfile2 : files2 filename2 = some (LoadShaderAsString files filename)) :
    LoadShaderAsString files filename =
      ((getlines c).map fun line => line ++ ['\n']).flatten ∧
    LoadShaderAsString files filename =
      (if c = [] ∨ c.getLast? = some '\n' then c else c ++ ['\n']) ∧
    (LoadShaderAsString files filename = [] ∨
      (LoadShaderAsString files filename).getLast? = some '\n') ∧
    LoadShaderAsString files2 filename2 = LoadShaderAsString files filename := by
  have h1 : LoadShaderAsString files filename = withFinalNewline c := by
    simp [LoadShaderAsString, hfile, readLoop_eq]
  refine ⟨?_, ?_, ?_, ?_⟩
  · simp [LoadShaderAsString, hfile, readLoop_getlines]
  · rw [h1]; rfl
  · rw [h1]; exact withFinalNewline_ends c
  · rw [h1] at hfile2 ⊢
    simp only [LoadShaderAsString, hfile2, readLoop_eq, List.nil_append]
    exact withFinalNewline_idem c

/-- Witness for C10: the two-line text "a⏎b" without a final newline. -/
theorem LoadShaderAsString_adds_final_newline_witness :
    LoadShaderAsString (fun _ => some ['a', '\n', 'b']) "./shaders/vert.glsl" =
      (if ['a', '\n', 'b'] = [] ∨ ['a', '\n', 'b'].getLast? = some '\n' then ['a', '\n', 'b']
        else ['a', '\n', 'b'] ++ ['\n']) ∧
    LoadShaderAsString
        (fun _ => some (LoadShaderAsString (fun _ => some ['a', '\n', 'b'])
          "./shaders/vert.glsl")) "./shaders/frag.glsl" =
      LoadShaderAsString (fun _ => some ['a', '\n', 'b']) "./shaders/vert.glsl" :=
  have h := LoadShaderAsString_adds_final_newline (fun _ => some ['a', '\n', 'b'])
    (fun _ => some (LoadShaderAsString (fun _ => some ['a', '\n', 'b']) "./shaders/vert.glsl"))
    "./shaders/vert.glsl" "./shaders/frag.glsl" ['a', '\n', 'b'] rfl rfl
  ⟨h.2.1, h.2.2.2⟩

/-- C4: a file that cannot be opened is loaded as the empty string;
`CreateGraphicsPipeline` hands the two loaded strings themselves to
`glShaderSource` (the embedded constants, which are not empty, are never
used), still compiles, attaches, links and validates, prints nothing, and
stores the handle returned by `glCreateProgram` in
`gGraphicsPipelineShaderProgram`, readable files or not. -/
theorem CreateGraphicsPipeline_unreadable_files (env : Env) (s : State) (path : String)
    (hpath : env.files path = none) :
    LoadShaderAsString env.files path = [] ∧
    (CreateGraphicsPipeline env s).calls =
      s.calls ++
        [.glCreateProgram env.createProgram,
         .glCreateShader GL_VERTEX_SHADER (env.createShader GL_VERTEX_SHADER),
         .glShaderSource (env.createShader GL_VERTEX_SHADER) 1
           (LoadShaderAsString env.files "./shaders/vert.glsl"),
         .glCompileShader (env.createShader GL_VERTEX_SHADER),
         .glCreateShader GL_FRAGMENT_SHADER (env.createShader GL_FRAGMENT_SHADER),
         .glShaderSource (env.createShader GL_FRAGMENT_SHADER) 1
           (LoadShaderAsString env.files "./shaders/frag.glsl"),
         .glCompileShader (env.createShader GL_FRAGMENT_SHADER),
         .glAttachShader env.createProgram (env.createShader GL_VERTEX_SHADER),
         .glAttachShader env.createProgram (env.createShader GL_FRAGMENT_SHADER),
         .glLinkProgram env.createProgram,
         .glValidateProgram env.createProgram] ∧
    (CreateGraphicsPipeline env s).gGraphicsPipelineShaderProgram = env.createProgram ∧
    (CreateGraphicsPipeline env s).cout = s.cout ∧
    (gVertexShaderSource ≠ [] ∧ gFragmentShaderSource ≠ []) := by
  refine ⟨?_, ?_, ?_, ?_, ?_, ?_⟩
  · simp [LoadShaderAsString, hpath]
  · simp [CreateGraphicsPipeline_eq, shaderProgramCalls]
  · simp [CreateGraphicsPipeline_eq]
  · simp [CreateGraphicsPipeline_eq]
  · decide
  · decide

/-- Witness for C4: no shader file exists; both `glShaderSource` calls carry
the empty string and handle 3 is stored. -/
theorem CreateGraphicsPipeline_unreadable_files_witness :
    LoadShaderAsString sampleEnv.files "./shaders/vert.glsl" = [] ∧
    (CreateGraphicsPipeline sampleEnv initialState).calls =
      [.glCreateProgram 3,
       .glCreateShader GL_VERTEX_SHADER 1,
       .glShaderSource 1 1 [],
       .glCompileShader 1,
       .glCreateShader GL_FRAGMENT_SHADER 2,
       .glShaderSource 2 1 [],
       .glCompileShader 2,
       .glAttachShader 3 1,
       .glAttachShader 3 2,
       .glLinkProgram 3,
       .glValidateProgram 3] ∧
    (CreateGraphicsPipeline sampleEnv initialState).gGraphicsPipelineShaderProgram = 3 :=
  have h := CreateGraphicsPipeline_unreadable_files sampleEnv initialState
    "./shaders/vert.glsl" rfl
  ⟨h.1, h.2.1.trans (by simp [LoadShaderAsString, sampleEnv, initialState]; decide), h.2.2.1⟩

/-! ## The claim on exit codes -/

/-- C3: the process ends with exit code 1 exactly when `SDL_Init` returns a
negative value, or `SDL_CreateWindow` returns null, or `gladLoadGLLoader`
returns false; the three are checked in that order and after the failing one
no further call is made; a null context only adds a line to the output; in
every other case `main` returns 0 if and when `MainLoop` ends, after `CleanUp`
has destroyed the window and shut SDL down. -/
theorem main_exit_code (env : Env) (batches : List (List SDL_Event)) (s : State) :
    ((∃ t, main env batches = some (1, t)) ↔
      (env.sdlInit < 0 ∨ env.createWindow = 0 ∨ env.gladLoad = 0)) ∧
    main env batches =
      (if env.sdlInit < 0 then
        some (1, { initialState with
          calls := [.SDL_Init SDL_INIT_VIDEO env.sdlInit]
          cout := ["SDL2 could not initialize video subsystem"] })
      else if env.createWindow = 0 then
        some (1, { initialState with
          calls :=
            [.SDL_Init SDL_INIT_VIDEO env.sdlInit,
             .SDL_GL_SetAttribute SDL_GL_CONTEXT_MAJOR_VERSION 4,
             .SDL_GL_SetAttribute SDL_GL_CONTEXT_MINOR_VERSION 1,
             .SDL_GL_SetAttribute SDL_GL_CONTEXT_PROFILE_MASK SDL_GL_CONTEXT_PROFILE_CORE,
             .SDL_GL_SetAttribute SDL_GL_DOUBLEBUFFER 1,
             .SDL_GL_SetAttribute SDL_GL_DEPTH_SIZE 24,
             .SDL_CreateWindow "OpenGL Window" 0 0 640 480 SDL_WINDOW_OPENGL env.createWindow]
          cout := ["SDl_Window was not able to be created"] })
      else if env.gladLoad = 0 then
        some (1, { initialState with
          gGraphicsApplicationWindow := env.createWindow
          gOpenGLContext := env.createContext
          calls :=
            [.SDL_Init SDL_INIT_VIDEO env.sdlInit,
             .SDL_GL_SetAttribute SDL_GL_CONTEXT_MAJOR_VERSION 4,
             .SDL_GL_SetAttribute SDL_GL_CONTEXT_MINOR_VERSION 1,
             .SDL_GL_SetAttribute SDL_GL_CONTEXT_PROFILE_MASK SDL_GL_CONTEXT_PROFILE_CORE,
             .SDL_GL_SetAttribute SDL_GL_DOUBLEBUFFER 1,
             .SDL_GL_SetAttribute SDL_GL_DEPTH_SIZE 24,
             .SDL_CreateWindow "OpenGL Window" 0 0 640 480 SDL_WINDOW_OPENGL env.createWindow,
             .SDL_GL_CreateContext env.createWindow env.createContext,
             .gladLoadGLLoader env.gladLoad]
          cout :=
            (if env.createContext = 0 then ["Could not create openGL context"] else []) ++
              ["Glad was not initialized"] })
      else
        (MainLoop batches (CreateGraphicsPipeline env (VertexSpecification env
          (GetOpenGLVersionInfo env { initialState with
            gGraphicsApplicationWindow := env.createWindow
            gOpenGLContext := env.createContext
            calls :=
              [.SDL_Init SDL_INIT_VIDEO env.sdlInit,
               .SDL_GL_SetAttribute SDL_GL_CONTEXT_MAJOR_VERSION 4,
               .SDL_GL_SetAttribute SDL_GL_CONTEXT_MINOR_VERSION 1,
               .SDL_GL_SetAttribute SDL_GL_CONTEXT_PROFILE_MASK SDL_GL_CONTEXT_PROFILE_CORE,
               .SDL_GL_SetAttribute SDL_GL_DOUBLEBUFFER 1,
               .SDL_GL_SetAttribute SDL_GL_DEPTH_SIZE 24,
               .SDL_CreateWindow "OpenGL Window" 0 0 640 480 SDL_WINDOW_OPENGL
                 env.createWindow,
               .SDL_GL_CreateContext env.createWindow env.createContext,
               .gladLoadGLLoader env.gladLoad]
            cout :=
              if env.createContext = 0 then ["Could not create openGL context"]
              else [] })))).map fun t => (0, CleanUp t)) ∧
    CleanUp s =
      { s with calls := s.calls ++
          [.SDL_DestroyWindow s.gGraphicsApplicationWindow, .SDL_Quit] } ∧
    (∃ t, main { env with sdlInit := 0, createWindow := env.createWindow + 1,
                          createContext := 0, gladLoad := 1 }
            ([⟨SDL_QUIT⟩] :: batches) = some (0, t) ∧
          "Could not create openGL context" ∈ t.cout ∧
          t.calls.getLast? = some .SDL_Quit) := by
  refine ⟨?_, ?_, ?_, ?_⟩
  · rw [main_eq]
    constructor
    · rintro ⟨t, ht⟩
      by_contra hcon
      simp only [not_or] at hcon
      obtain ⟨h1, h2, h3⟩ := hcon
      simp only [h1, h2, h3, if_false] at ht
      cases hloop : MainLoop batches (CreateGraphicsPipeline env (VertexSpecification env
        (GetOpenGLVersionInfo env (stateAtLoader env)))) with
      | none => simp [hloop] at ht
      | some u => simp [hloop] at ht
    · intro h
      by_cases h1 : env.sdlInit < 0
      · exact ⟨_, by simp only [h1, if_true]; rfl⟩
      · by_cases h2 : env.createWindow = 0
        · exact ⟨_, by simp only [h1, h2, if_true, if_false]; rfl⟩
        · have h3 : env.gladLoad = 0 := by
            rcases h with h | h | h
            · exact absurd h h1
            · exact absurd h h2
            · exact h
          exact ⟨_, by simp only [h1, h2, h3, if_true, if_false]; rfl⟩
  · rw [main_eq]
    rfl
  · simp [CleanUp, State.issue]
  · refine ⟨_, main_quit_first _ batches (by simp) (by simp) (by simp), ?_, ?_⟩
    · simp [CleanUp, MainLoopBody_eq, CreateGraphicsPipeline_eq, VertexSpecification_eq,
        GetOpenGLVersionInfo, stateAtLoader, State.issue, State.print, initialState]
    · simp [CleanUp, State.issue]

/-! ## The claims on `VertexSpecification` -/

/-- C5: with `sizeof(GLfloat) = 4`, `VertexSpecification` declares exactly two
attributes: slot 0, 3 floats, non-normalised, stride 24, offset 0 and slot 1,
3 floats, non-normalised, stride 24, offset 12; slot 0 ends where slot 1
starts, slot 1 ends at byte 24, the stride; and 3 vertices of one stride each
are the 72 bytes that are uploaded. -/
theorem VertexSpecification_attribute_layout (env : Env) (s : State) :
    sizeof_GLfloat = 4 ∧
    attribDecls (VertexSpecification env s).calls =
      attribDecls s.calls ++
        [⟨0, 3, GL_FLOAT, GL_FALSE, 24, 0⟩, ⟨1, 3, GL_FLOAT, GL_FALSE, 24, 12⟩] ∧
    ((⟨0, 3, GL_FLOAT, GL_FALSE, 24, 0⟩ : AttribDecl).firstByte = 0 ∧
      (⟨0, 3, GL_FLOAT, GL_FALSE, 24, 0⟩ : AttribDecl).endByte = 12 ∧
      (⟨1, 3, GL_FLOAT, GL_FALSE, 24, 12⟩ : AttribDecl).firstByte = 12 ∧
      (⟨1, 3, GL_FLOAT, GL_FALSE, 24, 12⟩ : AttribDecl).endByte = 24) ∧
    uploads (VertexSpecification env s).calls =
      uploads s.calls ++ [⟨GL_ARRAY_BUFFER, 72, vertexData, GL_STATIC_DRAW⟩] ∧
    3 * (sizeof_GLfloat * 6) = vertexData.length * sizeof_GLfloat ∧
    vertexData.length * sizeof_GLfloat = 72 := by
  refine ⟨rfl, ?_, ⟨rfl, rfl, rfl, rfl⟩, ?_, rfl, rfl⟩
  · rw [VertexSpecification_eq]
    simp only [attribDecls, List.filterMap_append]
    rfl
  · rw [VertexSpecification_eq]
    simp only [uploads, List.filterMap_append]
    rfl

/-- C6: every run of `VertexSpecification` uploads one buffer: the 18 floats
of `vertexData` (3 vertices of 6 floats) with the `GL_STATIC_DRAW` hint,
whatever the state and whatever names the driver hands out; a second run
uploads the same content again. -/
theorem VertexSpecification_upload_fixed (env env2 : Env) (s : State) :
    uploads (VertexSpecification env s).calls =
      uploads s.calls ++ [⟨GL_ARRAY_BUFFER, 72, vertexData, GL_STATIC_DRAW⟩] ∧
    (vertexData.length = 18 ∧ vertexData.length = 3 * 6) ∧
    vertexData =
      [⟨-5, 1⟩, ⟨-5, 1⟩, ⟨0, 1⟩, ⟨10, 1⟩, ⟨0, 1⟩,  ⟨0, 1⟩,
       ⟨5, 1⟩,  ⟨-5, 1⟩, ⟨0, 1⟩, ⟨6, 1⟩,  ⟨0, 1⟩,  ⟨8, 1⟩,
       ⟨-5, 1⟩, ⟨5, 1⟩,  ⟨0, 1⟩, ⟨10, 1⟩, ⟨75, 2⟩, ⟨8, 1⟩] ∧
    uploads (VertexSpecification env2 (VertexSpecification env s)).calls =
      uploads s.calls ++
        [⟨GL_ARRAY_BUFFER, 72, vertexData, GL_STATIC_DRAW⟩,
         ⟨GL_ARRAY_BUFFER, 72, vertexData, GL_STATIC_DRAW⟩] := by
  have h : ∀ (e : Env) (t : State), uploads (VertexSpecification e t).calls =
      uploads t.calls ++ [⟨GL_ARRAY_BUFFER, 72, vertexData, GL_STATIC_DRAW⟩] := by
    intro e t
    rw [VertexSpecification_eq]
    simp only [uploads, List.filterMap_append]
    rfl
  refine ⟨h env s, ⟨rfl, rfl⟩, rfl, ?_⟩
  rw [h env2, h env, List.append_assoc]
  rfl

/-- C7, as stated, fails: on a driver that hands out vertex-array name 1, when
`VertexSpecification` returns from the initial state it is not the case that
the binding is 0 and slots 0 and 1 of `gVertexArrayObject` are disabled. -/
theorem VertexSpecification_slots_disabled_counterexample :
    ¬ ((VertexArrayState.initial.run
          (VertexSpecification sampleEnv initialState).calls).binding = 0 ∧
        (VertexArrayState.initial.run
          (VertexSpecification sampleEnv initialState).calls).enabled
            (VertexSpecification sampleEnv initialState).gVertexArrayObject 0 = false ∧
        (VertexArrayState.initial.run
          (VertexSpecification sampleEnv initialState).calls).enabled
            (VertexSpecification sampleEnv initialState).gVertexArrayObject 1 = false) := by
  simp [VertexSpecification_eq, vertexSpecificationCalls, VertexArrayState.run,
    VertexArrayState.step, VertexArrayState.initial, sampleEnv, initialState]

/-- C7, amended: when `VertexSpecification` returns no vertex-array object is
bound, and, the name handed out by `glGenVertexArrays` being non-zero, slots 0
and 1 of the object it created, `gVertexArrayObject`, are both still enabled:
the two `glDisableVertexAttribArray` calls come after `glBindVertexArray(0)`
and act on object 0, whose slots 0 and 1 they leave disabled. -/
theorem VertexSpecification_unbinds_before_disabling (env : Env) (s : State)
    (hname : env.genVertexArray ≠ 0) :
    (VertexSpecification env s).gVertexArrayObject = env.genVertexArray ∧
    (VertexArrayState.initial.run (VertexSpecification env s).calls).binding = 0 ∧
    (VertexArrayState.initial.run (VertexSpecification env s).calls).enabled
      (VertexSpecification env s).gVertexArrayObject 0 = true ∧
    (VertexArrayState.initial.run (VertexSpecification env s).calls).enabled
      (VertexSpecification env s).gVertexArrayObject 1 = true ∧
    (VertexArrayState.initial.run (VertexSpecification env s).calls).enabled 0 0 = false ∧
    (VertexArrayState.initial.run (VertexSpecification env s).calls).enabled 0 1 = false := by
  rw [VertexSpecification_eq]
  simp only [VertexArrayState.run_append]
  generalize VertexArrayState.initial.run s.calls = g
  simp [vertexSpecificationCalls, VertexArrayState.run, VertexArrayState.step, hname]

/-- Witness for the amended C7: vertex-array name 1, from the initial state. -/
theorem VertexSpecification_unbinds_before_disabling_witness :
    (VertexArrayState.initial.run
        (VertexSpecification sampleEnv initialState).calls).binding = 0 ∧
    (VertexArrayState.initial.run
        (VertexSpecification sampleEnv initialState).calls).enabled 1 0 = true ∧
    (VertexArrayState.initial.run
        (VertexSpecification sampleEnv initialState).calls).enabled 1 1 = true :=
  have h := VertexSpecification_unbinds_before_disabling sampleEnv initialState (by decide)
  ⟨h.2.1, h.2.2.1, h.2.2.2.1⟩

end GLTriangle
